import Mathlib

set_option maxRecDepth 100000

/-!
Verification development for the SparkDEX on-chain swap/liquidity engine
(`src/ai/functions/sparkdex.py`, `src/ai/functions/abi_utils.py`,
`src/ai/functions/token_addresses.py`).

The Python source performs its numeric work in three arithmetics:
* exact big integers (amounts in base units, tick arithmetic),
* IEEE-754 binary64 ("float") arithmetic (slippage bounds, prices),
* Python `decimal.Decimal` arithmetic at the default context precision of
  28 significant digits, rounding half-even
  (`calculate_price_from_sqrt_price_x96`).

All three are deterministic, so they embed exactly into the rationals:
a binary64 value in the normal range is the rational `m * 2^e` produced by
round-to-nearest, ties-to-even, and a `Decimal` value is the rational
produced by rounding to 28 significant decimal digits, ties-to-even.
The rounding functions below implement exactly those two roundings for
values in the normal range (no overflow/underflow arises at any input
considered in this development; the engine only handles token amounts and
pool prices far inside the normal range).

Rationals are represented by raw numerator/denominator pairs (`Q` below)
with operations written as plain integer formulas, so that every value the
models produce can be evaluated by kernel reduction (`decide`).  Every `Q`
built by the operations below has a positive denominator, which is what the
comparison and floor operations assume.
-/

/-- A rational number as a raw (numerator, denominator) pair.  All values
constructed by the operations in this file have positive denominator. -/
structure Q where
  num : ℤ
  den : ℤ
  deriving DecidableEq, Repr

/-- The rational `n / 1`. -/
def Q.ofInt (n : ℤ) : Q := ⟨n, 1⟩

/-- Embedding of `Q` into the field `ℚ` (used only in statements, never in
computations). -/
def Q.val (a : Q) : ℚ := (a.num : ℚ) / (a.den : ℚ)

/-- Multiplication. -/
def Q.mul (a b : Q) : Q := ⟨a.num * b.num, a.den * b.den⟩

/-- Addition. -/
def Q.add (a b : Q) : Q := ⟨a.num * b.den + b.num * a.den, a.den * b.den⟩

/-- Subtraction. -/
def Q.sub (a b : Q) : Q := ⟨a.num * b.den - b.num * a.den, a.den * b.den⟩

/-- Division, keeping the denominator positive (the divisor is never zero
at any use in this file). -/
def Q.div (a b : Q) : Q :=
  let n := a.num * b.den
  let d := a.den * b.num
  if d < 0 then ⟨-n, -d⟩ else ⟨n, d⟩

/-- Strict order (valid for positive denominators). -/
def Q.lt (a b : Q) : Bool := decide (a.num * b.den < b.num * a.den)

/-- Order (valid for positive denominators). -/
def Q.le (a b : Q) : Bool := decide (a.num * b.den ≤ b.num * a.den)

/-- Value equality (valid for positive denominators). -/
def Q.eq (a b : Q) : Bool := decide (a.num * b.den = b.num * a.den)

/-- Floor (valid for positive denominators). -/
def Q.floor (a : Q) : ℤ := Int.fdiv a.num a.den

/-- Python `int(x)` applied to a float value `x`: truncation toward zero. -/
def Q.pyTrunc (a : Q) : ℤ :=
  if a.lt (Q.ofInt 0) then -(Q.floor ⟨-a.num, a.den⟩) else a.floor

/-- `a * b^e` for an integer exponent `e`, denominator kept positive. -/
def Q.shift (b : ℕ) (a : Q) (e : ℤ) : Q :=
  if 0 ≤ e then ⟨a.num * (b ^ e.toNat : ℕ), a.den⟩
  else ⟨a.num, a.den * (b ^ (-e).toNat : ℕ)⟩

/-- Floor of the base-`b` logarithm of a positive natural number, by fuel
recursion so that it reduces inside the kernel.  `fuel` must be at least
the answer; all uses in this file pass `fuel = 700`, ample for every
quantity the models produce. -/
def nlogAux (b : ℕ) : ℕ → ℕ → ℕ
  | 0, _ => 0
  | fuel + 1, n => if n < b then 0 else nlogAux b fuel (n / b) + 1

/-- Floor of the base-`b` logarithm of a positive `Q` (valid for positive
values; both components are logged with fuel 700 and the off-by-one of the
difference is corrected by one comparison). -/
def Q.log (b : ℕ) (a : Q) : ℤ :=
  let e0 : ℤ := (nlogAux b 700 a.num.toNat : ℤ) - (nlogAux b 700 a.den.toNat : ℤ)
  if (Q.shift b (Q.ofInt 1) e0).le a then e0 else e0 - 1

/-- Round a positive rational to a mantissa of `prec` digits in base `b`,
ties to even: the value `m * b^e` with `b^(prec-1) ≤ m < b^prec` nearest to
`a` (ties resolved to even `m`).  With `b = 2, prec = 53` this is IEEE-754
binary64 round-to-nearest-even in the normal range; with `b = 10,
prec = 28` it is Python `Decimal` rounding at the default context. -/
def roundSigPos (b : ℕ) (prec : ℕ) (a : Q) : Q :=
  let e : ℤ := a.log b - (prec - 1 : ℕ)
  let scaled : Q := Q.shift b a (-e)
  let m0 : ℤ := scaled.floor
  let r : Q := scaled.sub (Q.ofInt m0)
  let m : ℤ :=
    if r.lt ⟨1, 2⟩ then m0
    else if (⟨1, 2⟩ : Q).lt r then m0 + 1
    else if m0 % 2 = 0 then m0 else m0 + 1
  Q.shift b (Q.ofInt m) e

/-- IEEE-754 binary64 rounding (round to nearest, ties to even) of a
rational in the normal, non-overflowing range.  This is the value CPython
produces when converting an `int` or a parsed decimal literal to `float`,
and the rounding applied after every float arithmetic operation. -/
def roundDouble (a : Q) : Q :=
  if a.eq (Q.ofInt 0) then Q.ofInt 0
  else if (Q.ofInt 0).lt a then roundSigPos 2 53 a
  else ⟨-(roundSigPos 2 53 ⟨-a.num, a.den⟩).num, (roundSigPos 2 53 ⟨-a.num, a.den⟩).den⟩

/-- Python `Decimal` rounding at the default context: 28 significant
decimal digits, ties to even. -/
def roundDec28 (a : Q) : Q :=
  if a.eq (Q.ofInt 0) then Q.ofInt 0
  else if (Q.ofInt 0).lt a then roundSigPos 10 28 a
  else ⟨-(roundSigPos 10 28 ⟨-a.num, a.den⟩).num, (roundSigPos 10 28 ⟨-a.num, a.den⟩).den⟩

/-- Binary64 multiplication: `float * float` in CPython. -/
def fmul (x y : Q) : Q := roundDouble (x.mul y)

/-- Binary64 division: `float / float` (and `int / int`, which CPython
computes correctly rounded) in CPython. -/
def fdiv (x y : Q) : Q := roundDouble (x.div y)

/-- Binary64 subtraction: `float - float` in CPython. -/
def fsub (x y : Q) : Q := roundDouble (x.sub y)

/-- Binary64 addition: `float + float` in CPython. -/
def fadd (x y : Q) : Q := roundDouble (x.add y)

/-- The binary64 value of a Python `int` (the conversion CPython performs
before an `int`-with-`float` arithmetic operation). -/
def fofInt (n : ℤ) : Q := roundDouble (Q.ofInt n)

/-! ## Python string primitives

Only the fragments of Python string handling the engine exercises are
modelled: `str.startswith`, string truthiness (non-emptiness), `int(s)` and
`float(s)` on plain decimal literals.  The parsers cover optionally signed
decimal literals without exponents, underscores or surrounding whitespace —
a strict subset of CPython syntax that contains every input considered in
this development. -/

/-- Python `s.startswith(pre)`. -/
def pyStartsWith (s pre : String) : Bool := pre.data.isPrefixOf s.data

/-- Accumulate the value of a decimal digit string; `none` if a non-digit
occurs. -/
def decDigitsAux : List Char → ℕ → Option ℕ
  | [], acc => some acc
  | c :: cs, acc =>
    if c.isDigit then decDigitsAux cs (10 * acc + (c.toNat - 48)) else none

/-- Strip an optional leading sign, reporting whether it was `-`. -/
def pySign : List Char → Bool × List Char
  | '-' :: cs => (true, cs)
  | '+' :: cs => (false, cs)
  | cs => (false, cs)

/-- Python `int(s)` on a decimal literal: `none` models `ValueError`. -/
def pyParseInt (s : String) : Option ℤ :=
  let (neg, ds) := pySign s.data
  if ds.isEmpty then none
  else
    match decDigitsAux ds 0 with
    | none => none
    | some v => some (if neg then -(v : ℤ) else (v : ℤ))

/-- Python `float(s)` on a decimal literal, returning the exact rational
value of the literal (the conversion to binary64 is a separate
`roundDouble`): `none` models `ValueError`. -/
def pyParseFloat (s : String) : Option Q :=
  let (neg, ds) := pySign s.data
  let intPart := ds.takeWhile Char.isDigit
  let rest := ds.dropWhile Char.isDigit
  let signed : ℤ → ℤ := fun n => if neg then -n else n
  match rest with
  | [] =>
    if intPart.isEmpty then none
    else
      match decDigitsAux intPart 0 with
      | none => none
      | some v => some ⟨signed v, 1⟩
  | '.' :: frac =>
    if intPart.isEmpty && frac.isEmpty then none
    else
      match decDigitsAux (intPart ++ frac) 0 with
      | none => none
      | some v => some ⟨signed v, (10 ^ frac.length : ℕ)⟩
  | _ => none

/-! ## Python result dictionaries

Every public operation of the engine returns a Python dict.  Values are
modelled by `PyVal`; float values carry their exact binary64 rational, and
f-string values (`price_description` and friends) are modelled as an opaque
`fmt` node carrying the interpolated components, since reproducing CPython
`repr` of floats is outside the scope of every claim. -/

inductive PyVal where
  | str (s : String)
  | int (n : ℤ)
  | float (q : Q)
  | bool (b : Bool)
  | pyNone
  | dict (entries : List (String × PyVal))
  | fmt (parts : List PyVal)

abbrev PyDict := List (String × PyVal)

/-- Dictionary lookup (first match; the modelled dicts have distinct keys). -/
def plookup (k : String) : PyDict → Option PyVal
  | [] => none
  | (k2, v) :: rest => if k = k2 then some v else plookup k rest

/-- Lookup of a string-valued entry. -/
def pstr (d : PyDict) (k : String) : Option String :=
  match plookup k d with
  | some (.str s) => some s
  | _ => none

/-- Lookup of an int-valued entry. -/
def pint (d : PyDict) (k : String) : Option ℤ :=
  match plookup k d with
  | some (.int n) => some n
  | _ => none

/-- Whether the dict carries the key at all. -/
def hasKey (d : PyDict) (k : String) : Bool := (plookup k d).isSome

/-- The uniform error dictionary the source returns from failure paths. -/
def errDict (msg : String) : PyDict := [("error", .str msg), ("status", .str "error")]

/-- Result of a Python call that may raise: the error carries `str(e)`. -/
inductive Res (α : Type) where
  | ok (val : α)
  | err (msg : String)
  deriving DecidableEq

/-- `Res` analogue of `Option.getD` (a `try/except` with a default). -/
def Res.getD {α : Type} : Res α → α → α
  | .ok v, _ => v
  | .err _, d => d

/-! ## Contract address constants (`SPARKDEX_CONTRACTS`, `sparkdex.py`) -/

def swapRouterAddress : String := "0x8a1E35F5c98C4E85B36B7B253222eE17773b2781"
def quoterV2Address : String := "0x5B5513c55fd06e2658010c121c37b07fC8e8B705"
def v3FactoryAddress : String := "0x8A2578d23d4C532cC9A98FaD91C0523f5efDE652"
def nftPositionManagerAddress : String := "0xEE5FF5Bc5F852764b5584d92A4d592A53DC527da"

/-! ## Account resolution (`_get_account_from_private_key`, lines 39-70) -/

/-- The ambient inputs of `_get_account_from_private_key`: the
`PRIVATE_KEY` environment variable and `eth_account.Account.from_key`,
modelled as a partial map from key strings to account addresses (`none`
models `from_key` raising). -/
structure KeyEnv where
  privateKeyEnv : Option String
  fromKey : String → Option String

/-- The `if not private_key` fallback logic: a `None` or empty-string
argument falls back to the environment variable, which must itself be
set and non-empty. -/
def effectiveKey (env : KeyEnv) (privateKey : Option String) : Option String :=
  let k? : Option String :=
    match privateKey with
    | some k => if k.isEmpty then env.privateKeyEnv else some k
    | none => env.privateKeyEnv
  match k? with
  | some k => if k.isEmpty then none else some k
  | none => none

/-- Model of `_get_account_from_private_key`: returns the pair
`(account, address)`, with the account identified by the normalized key it
was created from, or `none` for the source's `(None, None)` (missing key,
or `Account.from_key` raising). -/
def getAccountFromPrivateKey (env : KeyEnv) (privateKey : Option String) :
    Option (String × String) :=
  match effectiveKey env privateKey with
  | none => none
  | some k =>
    let k2 := if pyStartsWith k "0x" then k else "0x" ++ k
    match env.fromKey k2 with
    | none => none
    | some address => some (k2, address)

/-! ## ABI resolution (`abi_utils.py` and `_get_contract_abi`) -/

/-- ABIs are opaque to every claim; identify them by a number. -/
abbrev Abi := ℕ

/-- Ambient inputs of the ABI layer: the local ABI file store (logical
name, i.e. basename without `.json`, to ABI), the `CONTRACT_ABI_MAPPING`
table, and the Flare explorer API (`none` covers both a failed request and
an empty result). -/
structure AbiEnv where
  fs : String → Option Abi
  mapping : String → Option String
  explorer : String → Option Abi

/-- The process-wide mutable state of the ABI layer: the `_abi_cache`
dictionary, plus instrumentation counting ABI file loads and explorer
fetches (the observable events the cache exists to avoid). -/
structure AbiState where
  cache : List (String × Abi)
  diskReads : ℕ
  fetches : ℕ
  deriving DecidableEq

/-- Outcome of `load_abi`: an ABI, or the `FileNotFoundError` it raises. -/
inductive LoadResult where
  | ok (a : Abi)
  | fileNotFound
  deriving DecidableEq

/-- The file-path resolution of `load_abi` (lines 48-63): an address
argument resolves through `CONTRACT_ABI_MAPPING`, then by address-named
file (after an existence check that raises without opening); a name
argument resolves to its own file. -/
def abiFilePath (env : AbiEnv) (contract_name : String) : Option String :=
  if pyStartsWith contract_name "0x" then
    match env.mapping contract_name with
    | some abiName => some abiName
    | none => if (env.fs contract_name).isSome then some contract_name else none
  else some contract_name

/-- Model of `abi_utils.load_abi` (lines 31-76): cache keyed by the
*argument* string; a successful open is counted and cached. -/
def load_abi (env : AbiEnv) (st : AbiState) (contract_name : String) :
    LoadResult × AbiState :=
  match st.cache.lookup contract_name with
  | some a => (.ok a, st)
  | none =>
    match abiFilePath env contract_name with
    | none => (.fileNotFound, st)
    | some path =>
      let st1 : AbiState := { st with diskReads := st.diskReads + 1 }
      match env.fs path with
      | some abi => (.ok abi, { st1 with cache := (contract_name, abi) :: st1.cache })
      | none => (.fileNotFound, st1)

/-- Model of `sparkdex._get_contract_abi` (lines 72-102): local load
first; on `FileNotFoundError`, one explorer fetch, whose result is *not*
inserted into the cache. -/
def get_contract_abi (env : AbiEnv) (st : AbiState) (contract_address : String) :
    Option Abi × AbiState :=
  match load_abi env st contract_address with
  | (.ok a, st1) => (some a, st1)
  | (.fileNotFound, st1) =>
    let st2 : AbiState := { st1 with fetches := st1.fetches + 1 }
    match env.explorer contract_address with
    | some abi => (some abi, st2)
    | none => (none, st2)

/-- Model of `sparkdex._get_contract` (lines 104-148) restricted to its
ABI-resolution behaviour: with no ABI argument it goes through
`_get_contract_abi`; with an ABI name it goes through `load_abi` (any
exception giving `None`).  The `connected` flag models the Web3-connection
check that precedes resolution. -/
def get_contract (env : AbiEnv) (st : AbiState) (connected : Bool)
    (contract_address : String) (abiName : Option String) : Option Abi × AbiState :=
  if connected then
    match abiName with
    | none => get_contract_abi env st contract_address
    | some name =>
      match load_abi env st name with
      | (.ok a, st1) => (some a, st1)
      | (.fileNotFound, st1) => (none, st1)
  else (none, st)

/-! ## The swap sequencer (`swap_tokens`, `sparkdex.py` lines 480-848)

`swap_tokens` interleaves pure control flow with chain reads and writes.
The chain side is modelled as an oracle environment (`SwapEnv`): each
distinct RPC interaction of one run is a field, `Res`-valued where the
source wraps the call in `try/except` and stringifies the exception.  The
model returns the result dictionary together with the ordered trace of
transaction-level events (`SwapEvent`) of the run: approvals built,
submitted and confirmed, and the swap transaction built and submitted.

Simplifications, stated here once: `Web3.to_checksum_address` is modelled
as the identity on address strings; `Web3.to_bytes` of an address and the
checksummed recipient are modelled by the address string itself;
`web3.to_hex` of a transaction hash is modelled by `txHex`.  The unguarded
chain reads inside the *approval* branch (`get_transaction_count`,
`gas_price`, `chain_id` at lines 589-592) abort through the enclosing
allowance handler when they raise, which the model reproduces. -/

/-- `web3.to_hex` on a transaction hash (hashes are opaque numbers). -/
def txHex (h : ℕ) : String := "0x" ++ toString h

/-- The swap transaction parameters the source assembles (`swap_params`
plus `tx_params`, lines 688-742). -/
structure SwapTx where
  tokenIn : String
  tokenOut : String
  fee : ℕ
  recipient : String
  deadline : ℕ
  amountIn : ℤ
  amountOutMinimum : ℤ
  sqrtPriceLimitX96 : ℕ
  gas : ℕ
  gasPrice : ℕ
  nonce : ℕ
  chainId : ℕ
  deriving DecidableEq, Repr

/-- Transaction-level events of one `swap_tokens` run, in order. -/
inductive SwapEvent where
  | approvalBuilt (spender : String) (value : ℕ)
  | approvalSubmitted (txHash : ℕ)
  | approvalReceipt (status : ℕ)
  | swapBuilt (tx : SwapTx)
  | swapSubmitted (txHash : ℕ)
  deriving DecidableEq, Repr

/-- Oracle environment for one `swap_tokens` run: the outcome of every
chain interaction the run can perform, plus the wall clock.
`blockTimestamp` is the chain's latest block timestamp during the run (the
quantity `add_liquidity` uses for its deadline); the swap path never reads
it. -/
structure SwapEnv where
  isAddress : String → Bool
  keyEnv : KeyEnv
  connected : Bool
  routerOk : Bool
  tokenInOk : Bool
  quoterOk : Bool
  decimalsCall : Res ℕ
  allowanceCall : Res ℕ
  nonceCall : Res ℕ
  gasPriceCall : Res ℕ
  chainIdCall : Res ℕ
  approveSignSend : Res ℕ
  approveReceiptStatus : ℕ
  quoteCall : Res ℕ
  localTime : ℕ
  blockTimestamp : ℕ
  routerHasExactInputSingle : Bool
  swapBuild : Res Unit
  swapSignSend : Res ℕ
  swapReceiptWait : Res Unit

/-- `int(float(amount_in) * 10**decimals)` (lines 565/570): base-unit
conversion through binary64. -/
def pyWei (amount : Q) (decimals : ℕ) : ℤ :=
  (fmul (roundDouble amount) (fofInt (10 ^ decimals : ℕ))).pyTrunc

/-- `int(amount_out * (1 - slippage / 100))` (line 665): the slippage
bound through binary64. -/
def pyMinAmountOut (amount_out : ℕ) (slippage : Q) : ℤ :=
  (fmul (fofInt amount_out) (fsub (Q.ofInt 1) (fdiv slippage (Q.ofInt 100)))).pyTrunc

/-- The tail of `swap_tokens` after the allowance/approval phase:
quoting (lines 627-672), deadline (675-676), building (683-761), signing
and submitting (763-814), receipt and success dictionary (820-835).
`ev` is the event trace accumulated by the approval phase. -/
def swapAfterApproval (env : SwapEnv) (token_in_address token_out_address
    from_address : String) (amount_in_converted amount_in_wei : ℤ)
    (slippage : Q) (ev : List SwapEvent) : PyDict × List SwapEvent :=
  if env.quoterOk = true then
    let fee : ℕ := 3000
    match env.quoteCall with
    | .err e => (errDict ("Error getting quote: " ++ e), ev)
    | .ok amount_out =>
      let min_amount_out : ℤ := pyMinAmountOut amount_out slippage
      let deadline : ℕ := env.localTime + 1200
      match env.nonceCall with
      | .err e => (errDict ("Error getting transaction count: " ++ e), ev)
      | .ok nonce =>
        match env.gasPriceCall with
        | .err e => (errDict ("Error getting gas price: " ++ e), ev)
        | .ok gas_price =>
          match env.chainIdCall with
          | .err e => (errDict ("Error getting chain ID: " ++ e), ev)
          | .ok chain_id =>
            if env.routerHasExactInputSingle = true then
              match env.swapBuild with
              | .err e => (errDict ("Error building transaction object: " ++ e), ev)
              | .ok _ =>
                let tx : SwapTx :=
                  { tokenIn := token_in_address, tokenOut := token_out_address,
                    fee := fee, recipient := from_address, deadline := deadline,
                    amountIn := amount_in_wei, amountOutMinimum := min_amount_out,
                    sqrtPriceLimitX96 := 0, gas := 600000, gasPrice := gas_price,
                    nonce := nonce, chainId := chain_id }
                let ev1 := ev ++ [SwapEvent.swapBuilt tx]
                match env.swapSignSend with
                | .err e =>
                  (errDict ("Error building swap transaction: " ++
                    "Error in inline transaction signing/sending: " ++ e), ev1)
                | .ok txh =>
                  let ev2 := ev1 ++ [SwapEvent.swapSubmitted txh]
                  match env.swapReceiptWait with
                  | .err e => (errDict ("Error building swap transaction: " ++ e), ev2)
                  | .ok _ =>
                    ([("transaction_hash", .str (txHex txh)),
                      ("from_address", .str from_address),
                      ("token_in", .str token_in_address),
                      ("token_out", .str token_out_address),
                      ("amount_in", .int amount_in_converted),
                      ("amount_in_wei", .int amount_in_wei),
                      ("expected_amount_out", .int (amount_out : ℤ)),
                      ("min_amount_out", .int min_amount_out),
                      ("status", .str "success")], ev2)
            else (errDict "Router contract does not have exactInputSingle function", ev)
  else (errDict ("Failed to get contract instance for " ++ quoterV2Address), ev)

/-- Model of `swap_tokens` (lines 480-848). -/
def swap_tokens (env : SwapEnv) (token_in_address token_out_address
    amount_in : String) (slippage : Q) (private_key : Option String) :
    PyDict × List SwapEvent :=
  if env.isAddress token_in_address = true then
    if env.isAddress token_out_address = true then
      match getAccountFromPrivateKey env.keyEnv private_key with
      | none => (errDict "Failed to get account from private key", [])
      | some (_, from_address) =>
        if env.connected = true then
          if env.routerOk = true then
            if env.tokenInOk = true then
              -- decimals read with default 18 on failure (lines 560-571)
              let decimals : ℕ := env.decimalsCall.getD 18
              match pyParseFloat amount_in with
              | none =>
                -- `float(amount_in)` raises; re-raised in the handler and
                -- caught by the outermost handler (line 842)
                (errDict ("Error swapping tokens: could not convert string to float: "
                  ++ amount_in), [])
              | some amountF =>
                let amount_in_wei : ℤ := pyWei amountF decimals
                -- `amount_in_converted = int(amount_in)` (line 573)
                match pyParseInt amount_in with
                | none =>
                  (errDict ("Error swapping tokens: invalid literal for int with base 10: "
                    ++ amount_in), [])
                | some amount_in_converted =>
                  -- allowance / approval phase (lines 575-625)
                  match env.allowanceCall with
                  | .err e => (errDict ("Error checking allowance: " ++ e), [])
                  | .ok allowance =>
                    if (allowance : ℤ) < amount_in_wei then
                      match env.nonceCall with
                      | .err e => (errDict ("Error checking allowance: " ++ e), [])
                      | .ok _ =>
                        match env.gasPriceCall with
                        | .err e => (errDict ("Error checking allowance: " ++ e), [])
                        | .ok _ =>
                          match env.chainIdCall with
                          | .err e => (errDict ("Error checking allowance: " ++ e), [])
                          | .ok _ =>
                            let ev0 : List SwapEvent :=
                              [.approvalBuilt swapRouterAddress (2 ^ 256 - 1)]
                            match env.approveSignSend with
                            | .err e => (errDict ("Error approving tokens: " ++ e), ev0)
                            | .ok txh =>
                              let ev1 := ev0 ++ [SwapEvent.approvalSubmitted txh,
                                SwapEvent.approvalReceipt env.approveReceiptStatus]
                              if env.approveReceiptStatus = 1 then
                                swapAfterApproval env token_in_address token_out_address
                                  from_address amount_in_converted amount_in_wei slippage ev1
                              else
                                ([("error", .str "Approval transaction failed"),
                                  ("tx_hash", .str (txHex txh)),
                                  ("status", .str "error")], ev1)
                    else
                      swapAfterApproval env token_in_address token_out_address
                        from_address amount_in_converted amount_in_wei slippage []
            else (errDict ("Failed to get contract instance for " ++ token_in_address), [])
          else (errDict ("Failed to get contract instance for " ++ swapRouterAddress), [])
        else (errDict "Failed to connect to Ethereum node", [])
    else (errDict ("Invalid output token address: " ++ token_out_address), [])
  else (errDict ("Invalid input token address: " ++ token_in_address), [])

/-- The swap transaction built during a run, if any (first `swapBuilt`
event of the trace). -/
def builtSwapTx : List SwapEvent → Option SwapTx
  | [] => none
  | .swapBuilt tx :: _ => some tx
  | _ :: rest => builtSwapTx rest

/-- Number of approval transactions built during a run. -/
def approvalsBuilt : List SwapEvent → ℕ
  | [] => 0
  | .approvalBuilt _ _ :: rest => approvalsBuilt rest + 1
  | _ :: rest => approvalsBuilt rest

/-- Number of approval transactions submitted during a run. -/
def approvalsSubmitted : List SwapEvent → ℕ
  | [] => 0
  | .approvalSubmitted _ :: rest => approvalsSubmitted rest + 1
  | _ :: rest => approvalsSubmitted rest

/-- The approval amounts of a run, in order. -/
def approvalValues : List SwapEvent → List ℕ
  | [] => []
  | .approvalBuilt _ v :: rest => v :: approvalValues rest
  | _ :: rest => approvalValues rest

/-- `true` iff, scanning left to right, an approval receipt is observed
before any swap transaction is built (vacuously `false` when a swap is
built first; used under the hypothesis that an approval happened). -/
def receiptBeforeSwapBuilt : List SwapEvent → Bool
  | [] => true
  | .swapBuilt _ :: _ => false
  | .approvalReceipt _ :: _ => true
  | _ :: rest => receiptBeforeSwapBuilt rest

/-! ## Price mathematics (`calculate_price_from_sqrt_price_x96`,
`get_detailed_pool_data` and `get_pool_info` price lines) -/

/-- Model of `calculate_price_from_sqrt_price_x96` (lines 1789-1813).
The source computes with `decimal.Decimal` at the default context
(28 significant digits, half-even): the division by `2**96` rounds, the
squaring rounds, the final multiplication rounds, and `float()` converts
to binary64.  `Decimal(int)` is exact.  `10 ** e` is an exact `int` for
`e ≥ 0`; for `e < 0` CPython evaluates a binary64 power, modelled as the
correctly rounded power (which is what CPython produces for every decimal
power arising here), and `Decimal(float)` is exact.  The source's
`except: return 0` branch is unreachable in the modelled domain. -/
def calculate_price_from_sqrt_price_x96 (sqrt_price_x96 : ℕ)
    (token0_decimals token1_decimals : ℤ) : Q :=
  let sqrt_price : Q := roundDec28 ((Q.ofInt sqrt_price_x96).div (Q.ofInt (2 ^ 96)))
  let price : Q := roundDec28 (sqrt_price.mul sqrt_price)
  let decimal_adjustment : Q :=
    if 0 ≤ token1_decimals - token0_decimals then
      Q.ofInt (10 ^ (token1_decimals - token0_decimals).toNat)
    else roundDouble ⟨1, (10 ^ (token0_decimals - token1_decimals).toNat : ℕ)⟩
  let adjusted_price : Q := roundDec28 (price.mul decimal_adjustment)
  roundDouble adjusted_price

/-- The price computation of `get_detailed_pool_data` (lines 1026-1033),
in binary64 throughout: `price_raw = (sqrt_price_x96 / (2**96)) ** 2`
(`int / int` is a correctly rounded float division; `** 2` is modelled as
a correctly rounded square, which matches CPython at the inputs
considered) and `price = price_raw * (10 ** (token0_decimals -
token1_decimals))` — note the exponent direction, `d0 - d1`. -/
def detailedPoolPrice (sqrt_price_x96 : ℕ) (token0_decimals token1_decimals : ℤ) : Q :=
  let x : Q := fdiv (Q.ofInt sqrt_price_x96) (Q.ofInt (2 ^ 96))
  let price_raw : Q := fmul x x
  let adjustment : Q :=
    if 0 ≤ token0_decimals - token1_decimals then
      fofInt (10 ^ (token0_decimals - token1_decimals).toNat)
    else roundDouble ⟨1, (10 ^ (token1_decimals - token0_decimals).toNat : ℕ)⟩
  fmul price_raw adjustment

/-- The price computation of `get_pool_info` (line 310):
`(sqrt_price_x96 / (2**96))**2`, with no decimals adjustment. -/
def poolInfoPrice (sqrt_price_x96 : ℕ) : Q :=
  let x : Q := fdiv (Q.ofInt sqrt_price_x96) (Q.ofInt (2 ^ 96))
  fmul x x

/-! ## Default tick bounds (`add_liquidity`, lines 1365-1384)

When tick bounds are not supplied, `add_liquidity` reads the pool's
current tick and the factory's tick spacing for the fee tier and derives
each missing bound; Python `%` on a positive modulus returns a value in
`[0, modulus)`, which is `Int.emod` for a positive divisor. -/

/-- The tick-bound derivation of `add_liquidity`: `current_tick ∓/± 10 *
tick_spacing`, snapped down to a multiple of `tick_spacing`, for each
bound not supplied. -/
def deriveTickBounds (current_tick tick_spacing : ℤ)
    (tick_lower tick_upper : Option ℤ) : ℤ × ℤ :=
  match tick_lower, tick_upper with
  | some lo, some hi => (lo, hi)
  | lo?, hi? =>
    let lo : ℤ :=
      match lo? with
      | some lo => lo
      | none =>
        let x := current_tick - 10 * tick_spacing
        x - x % tick_spacing
    let hi : ℤ :=
      match hi? with
      | some hi => hi
      | none =>
        let x := current_tick + 10 * tick_spacing
        x - x % tick_spacing
    (lo, hi)

/-! ## Token tables (`token_addresses.py`) -/

/-- `TOKEN_ADDRESSES`. -/
def TOKEN_ADDRESSES : List (String × String) :=
  [("WFLR", "0x1D80c49BbBCd1C0911346656B529DF9E5c2F783d"),
   ("USDT", "0x0B38e83B86d491735fEaa0a791F65c2B99535396"),
   ("USDC", "0xFbDa5F676cB37624f28265A144A48B0d6e87d3b6"),
   ("JOULE", "0xE6505f92583103AF7ed9974DEC451A7Af4e3A3bE"),
   ("SFLR", "0x12e605bc104e93B45e1aD99F9e555f659051c2BB"),
   ("USDX", "0x4A771Cc1a39FDd8AA08B8EA51F7Fd412e73B3d2B"),
   ("WETH", "0x1502FA4be69d526124D453619276FacCab275d3D")]

/-- The `decimals` field of `TOKEN_INFO` (the only field the functions
under verification read). -/
def TOKEN_INFO_decimals : List (String × ℕ) :=
  [("WFLR", 18), ("USDT", 6), ("USDC", 6), ("JOULE", 18), ("SFLR", 18),
   ("USDX", 6), ("WETH", 18)]

/-- ASCII lowercase of one character (the address alphabet is ASCII). -/
def charLower (c : Char) : Char :=
  if 'A' ≤ c ∧ c ≤ 'Z' then Char.ofNat (c.toNat + 32) else c

/-- Python `str.lower()` on ASCII strings (defined over the character
list so that it reduces inside the kernel). -/
def pyLower (s : String) : String := ⟨s.data.map charLower⟩

/-- Model of `get_token_by_address`: first symbol whose address matches
case-insensitively, else `none`. -/
def get_token_by_address (address : String) : Option String :=
  ((TOKEN_ADDRESSES.find? fun p => pyLower p.2 = pyLower address).map fun p => p.1)

/-- `token_prices_usd` of `get_pool_details_by_address` (lines 1736-1740);
`0.0142` is the binary64 value of that literal. -/
def token_prices_usd : List (String × Q) :=
  [("WFLR", roundDouble ⟨142, 10000⟩), ("USDT", Q.ofInt 1), ("USDC", Q.ofInt 1)]

/-! ## `get_pool_info` (lines 242-334) -/

/-- The pool state reads of `get_pool_info` (`token0()`, `token1()`,
`fee()`, `liquidity()`, `slot0()`), grouped: the source performs them in a
straight line inside one `try`, so a single `Res` captures the run. -/
structure PoolInfoData where
  token0 : String
  token1 : String
  fee : ℕ
  liquidity : ℕ
  sqrtPriceX96 : ℕ
  tick : ℤ
  deriving DecidableEq, Repr

/-- Oracle environment for one `get_pool_info` run. -/
structure PoolInfoEnv where
  isAddress : String → Bool
  factoryOk : Bool
  getPoolCall : Res String
  poolOk : Bool
  poolDataCall : Res PoolInfoData

/-- Model of `get_pool_info`. -/
def get_pool_info (env : PoolInfoEnv) (token0_address token1_address : String)
    (fee : ℕ) : PyDict :=
  if env.isAddress token0_address = true then
    if env.isAddress token1_address = true then
      if env.factoryOk = true then
        match env.getPoolCall with
        | .err e => errDict ("Error getting pool info: " ++ e)
        | .ok pool_address =>
          if pool_address = "0x0000000000000000000000000000000000000000" then
            errDict ("Pool does not exist for tokens " ++ token0_address ++ " and "
              ++ token1_address ++ " with fee " ++ toString fee)
          else if env.poolOk = true then
            match env.poolDataCall with
            | .err e => errDict ("Error getting pool info: " ++ e)
            | .ok d =>
              [("pool_address", .str pool_address),
               ("token0", .str d.token0),
               ("token1", .str d.token1),
               ("fee", .int (d.fee : ℤ)),
               ("liquidity", .int (d.liquidity : ℤ)),
               ("sqrtPriceX96", .int (d.sqrtPriceX96 : ℤ)),
               ("tick", .int d.tick),
               ("price", .float (poolInfoPrice d.sqrtPriceX96)),
               ("status", .str "success")]
          else
            [("pool_address", .str pool_address),
             ("message", .str "Pool exists but could not get contract instance"),
             ("status", .str "partial")]
      else errDict ("Failed to get contract instance for " ++ v3FactoryAddress)
    else errDict ("Invalid token1 address: " ++ token1_address)
  else errDict ("Invalid token0 address: " ++ token0_address)

/-! ## `get_pool_details_by_address` (lines 1655-1787) -/

/-- The straight-line pool reads of `get_pool_details_by_address`
(`token0()`, `token1()`, `fee()`, `liquidity()`, `tickSpacing()`,
`factory()`, `slot0()`): any of them raising lands in the function's
single `except` handler, so one `Res` captures the group. -/
structure PoolDetailsData where
  token0Address : String
  token1Address : String
  fee : ℕ
  liquidity : ℕ
  tickSpacing : ℤ
  factoryAddress : String
  sqrtPriceX96 : ℕ
  currentTick : ℤ
  deriving DecidableEq, Repr

/-- Oracle environment for one `get_pool_details_by_address` run. -/
structure PoolDetailsEnv where
  isAddress : String → Bool
  poolOk : Bool
  coreCall : Res PoolDetailsData
  token0ContractOk : Bool
  token1ContractOk : Bool
  token0DecimalsCall : Res ℕ
  token1DecimalsCall : Res ℕ
  token0SymbolCall : Res String
  token1SymbolCall : Res String

/-- The per-token symbol/decimals resolution of
`get_pool_details_by_address` (lines 1694-1729): symbol from the local
table, decimals from `TOKEN_INFO` when the symbol is known there,
otherwise from the contract with fallback 18; an unknown symbol is then
retried from the contract with fallback `"Unknown"`. -/
def resolveTokenMeta (address : String) (contractOk : Bool)
    (decimalsCall : Res ℕ) (symbolCall : Res String) : String × ℕ :=
  let symbol0 : String := (get_token_by_address address).getD "Unknown"
  let decimals : ℕ :=
    if symbol0 ≠ "Unknown" ∧ (TOKEN_INFO_decimals.lookup symbol0).isSome then
      (TOKEN_INFO_decimals.lookup symbol0).getD 18
    else if contractOk then decimalsCall.getD 18
    else 18
  let symbol : String :=
    if symbol0 = "Unknown" ∧ contractOk then symbolCall.getD "Unknown"
    else symbol0
  (symbol, decimals)

/-- Model of `get_pool_details_by_address`.  Note that no branch of the
source puts a `"status"` key in the returned dictionary. -/
def get_pool_details_by_address (env : PoolDetailsEnv) (pool_address : String) :
    PyDict :=
  if env.isAddress pool_address = true then
    if env.poolOk = true then
      match env.coreCall with
      | .err e => [("error", .str ("Failed to get pool details: " ++ e))]
      | .ok d =>
        let m0 := resolveTokenMeta d.token0Address env.token0ContractOk
          env.token0DecimalsCall env.token0SymbolCall
        let m1 := resolveTokenMeta d.token1Address env.token1ContractOk
          env.token1DecimalsCall env.token1SymbolCall
        let price : Q := calculate_price_from_sqrt_price_x96 d.sqrtPriceX96
          (m0.2 : ℤ) (m1.2 : ℤ)
        let usd_price? : Option Q :=
          match token_prices_usd.lookup m0.1, token_prices_usd.lookup m1.1 with
          | some u0, some u1 => some (fdiv (fmul price u1) u0)
          | _, _ => none
        let base : PyDict :=
          [("pool_address", .str pool_address),
           ("token0", .dict [("address", .str d.token0Address),
             ("symbol", .str m0.1), ("decimals", .int (m0.2 : ℤ))]),
           ("token1", .dict [("address", .str d.token1Address),
             ("symbol", .str m1.1), ("decimals", .int (m1.2 : ℤ))]),
           ("fee", .int (d.fee : ℤ)),
           ("fee_percent", .float (fdiv (Q.ofInt d.fee) (Q.ofInt 10000))),
           ("liquidity", .int (d.liquidity : ℤ)),
           ("tick_spacing", .int d.tickSpacing),
           ("current_tick", .int d.currentTick),
           ("sqrt_price_x96", .int (d.sqrtPriceX96 : ℤ)),
           ("price", .float price),
           ("price_description", .fmt [.str m0.1, .float price, .str m1.1]),
           ("factory_address", .str d.factoryAddress)]
        match usd_price? with
        | some u =>
          base ++ [("usd_price", .float u),
            ("usd_price_description", .fmt [.str m0.1, .float u])]
        | none => base
    else [("error", .str ("Could not get contract instance for pool: " ++ pool_address))]
  else [("error", .str ("Invalid pool address format: " ++ pool_address))]

/-! ## `get_token_price` (lines 336-426) -/

/-- Oracle environment for one `get_token_price` run: `quoter fee` is the
outcome of `quoteExactInputSingle` at that fee tier (`none` = the call
raised, e.g. no such pool). -/
structure PriceEnv where
  isAddress : String → Bool
  quoterOk : Bool
  connected : Bool
  quoter : ℕ → Option ℕ

/-- The `for fee in fee_tiers` loop of `get_token_price` (lines 387-419):
first tier whose quote succeeds returns; a failure falls through to the
next tier; an exhausted list is the no-quote error. -/
def priceTierLoop (env : PriceEnv) (token_address quote_token_address : String) :
    List ℕ → PyDict
  | [] => errDict ("Could not get price for token " ++ token_address)
  | fee :: rest =>
    match env.quoter fee with
    | some amount_out =>
      [("token", .str token_address),
       ("quote_token", .str quote_token_address),
       ("price", .float (fdiv (Q.ofInt amount_out) (Q.ofInt (10 ^ 18)))),
       ("fee_tier", .int (fee : ℤ)),
       ("status", .str "success")]
    | none => priceTierLoop env token_address quote_token_address rest

/-- Model of `get_token_price`. -/
def get_token_price (env : PriceEnv) (token_address quote_token_address : String) :
    PyDict :=
  if env.isAddress token_address = true then
    if env.isAddress quote_token_address = true then
      if env.quoterOk = true then
        if env.connected = true then
          priceTierLoop env token_address quote_token_address [100, 500, 3000, 10000]
        else errDict "Failed to connect to Ethereum node"
      else errDict ("Failed to get contract instance for " ++ quoterV2Address)
    else errDict ("Invalid quote token address: " ++ quote_token_address)
  else errDict ("Invalid token address: " ++ token_address)

/-! ## Concrete oracle environments used by closed theorems

One fixed happy-path chain: every address valid, all contracts resolve,
18-decimals input token, zero current allowance (so a swap must approve),
wall clock 1000, chain block timestamp 5000, and fixed nonce/gas/chain-id
and transaction hashes.  Variants adjust single fields. -/

def happyKeyEnv : KeyEnv :=
  { privateKeyEnv := some "aa",
    fromKey := fun s => if s = "0xaa" then some "0xAAAA" else none }

def happySwapEnv (quote : ℕ) : SwapEnv :=
  { isAddress := fun _ => true, keyEnv := happyKeyEnv, connected := true,
    routerOk := true, tokenInOk := true, quoterOk := true,
    decimalsCall := .ok 18, allowanceCall := .ok 0,
    nonceCall := .ok 7, gasPriceCall := .ok 5, chainIdCall := .ok 14,
    approveSignSend := .ok 111, approveReceiptStatus := 1,
    quoteCall := .ok quote, localTime := 1000, blockTimestamp := 5000,
    routerHasExactInputSingle := true, swapBuild := .ok (),
    swapSignSend := .ok 222, swapReceiptWait := .ok () }

/-- Happy chain but the approval transaction's receipt reports failure. -/
def failedApprovalSwapEnv : SwapEnv :=
  { happySwapEnv 9950000000000000000 with approveReceiptStatus := 0 }

/-- Happy chain but no private key anywhere. -/
def noKeySwapEnv : SwapEnv :=
  { happySwapEnv 9950000000000000000 with
    keyEnv := { privateKeyEnv := none, fromKey := happyKeyEnv.fromKey } }

/-- A quoter that answers only at fee tier 3000. -/
def tier3000PriceEnv : PriceEnv :=
  { isAddress := fun _ => true, quoterOk := true, connected := true,
    quoter := fun f => if f = 3000 then some 42 else none }

/-- An ABI world where the address resolves only through the remote
explorer: no local file, no address mapping. -/
def remoteOnlyAbiEnv : AbiEnv :=
  { fs := fun _ => none, mapping := fun _ => none,
    explorer := fun a => if a = "0xDEAD" then some 7 else none }

/-- An ABI world with one local file `erc20`. -/
def localAbiEnv : AbiEnv :=
  { fs := fun n => if n = "erc20" then some 3 else none,
    mapping := fun _ => none, explorer := fun _ => none }

/-- The ABI layer's state at process start. -/
def freshAbiState : AbiState := { cache := [], diskReads := 0, fetches := 0 }

def samplePoolData : PoolDetailsData :=
  { token0Address := "0x1D80c49BbBCd1C0911346656B529DF9E5c2F783d",
    token1Address := "0x0B38e83B86d491735fEaa0a791F65c2B99535396",
    fee := 3000, liquidity := 5, tickSpacing := 60,
    factoryAddress := "0xFAC", sqrtPriceX96 := 2 ^ 96, currentTick := 0 }

/-- A fully successful `get_pool_details_by_address` run (WFLR/USDT pool
at price ratio 1, so the USD estimate branch is taken too). -/
def happyDetailsEnv : PoolDetailsEnv :=
  { isAddress := fun _ => true, poolOk := true, coreCall := .ok samplePoolData,
    token0ContractOk := true, token1ContractOk := true,
    token0DecimalsCall := .ok 18, token1DecimalsCall := .ok 6,
    token0SymbolCall := .ok "WFLR", token1SymbolCall := .ok "USDT" }

/-- A `get_pool_details_by_address` run handed a malformed address. -/
def badAddressDetailsEnv : PoolDetailsEnv :=
  { happyDetailsEnv with isAddress := fun _ => false }

def samplePoolInfoData : PoolInfoData :=
  { token0 := "0xT0", token1 := "0xT1", fee := 3000,
    liquidity := 5, sqrtPriceX96 := 2 ^ 96, tick := 0 }

/-- A fully successful `get_pool_info` run. -/
def happyPoolInfoEnv : PoolInfoEnv :=
  { isAddress := fun _ => true, factoryOk := true,
    getPoolCall := .ok "0xPOOL", poolOk := true,
    poolDataCall := .ok samplePoolInfoData }

/-- Key environment for the empty-string private-key edge: the
environment variable holds a valid key, and `Account.from_key` accepts
exactly that key (with its `0x` prefix) and rejects the bare `"0x"`. -/
def envVarKeyEnv : KeyEnv := happyKeyEnv

/-! # Theorems -/

/-! ## Shared trace lemmas -/

theorem builtSwapTx_append_of_none {a : List SwapEvent} (b : List SwapEvent)
    (h : builtSwapTx a = none) : builtSwapTx (a ++ b) = builtSwapTx b := by
  induction a with
  | nil => rfl
  | cons e r ih => cases e <;> simp [builtSwapTx] at h ⊢ <;> exact ih h

theorem approvalsBuilt_append (a b : List SwapEvent) :
    approvalsBuilt (a ++ b) = approvalsBuilt a + approvalsBuilt b := by
  induction a with
  | nil => simp [approvalsBuilt]
  | cons e r ih => cases e <;> simp [approvalsBuilt, ih] <;> omega

theorem approvalsSubmitted_append (a b : List SwapEvent) :
    approvalsSubmitted (a ++ b) = approvalsSubmitted a + approvalsSubmitted b := by
  induction a with
  | nil => simp [approvalsSubmitted]
  | cons e r ih => cases e <;> simp [approvalsSubmitted, ih] <;> omega

theorem approvalValues_append (a b : List SwapEvent) :
    approvalValues (a ++ b) = approvalValues a ++ approvalValues b := by
  induction a with
  | nil => simp [approvalValues]
  | cons e r ih => cases e <;> simp [approvalValues, ih]

/-- The tail of the sequencer only ever emits swap-side events: the
approval statistics of its trace are those of the approval-phase trace it
was handed. -/
theorem swapAfterApproval_trace (env : SwapEnv) (tin tout fa : String)
    (aic wei : ℤ) (s : Q) (ev : List SwapEvent) :
    approvalsBuilt (swapAfterApproval env tin tout fa aic wei s ev).2 = approvalsBuilt ev ∧
    approvalsSubmitted (swapAfterApproval env tin tout fa aic wei s ev).2
      = approvalsSubmitted ev ∧
    approvalValues (swapAfterApproval env tin tout fa aic wei s ev).2
      = approvalValues ev := by
  unfold swapAfterApproval
  split <;>
    [skip; exact ⟨rfl, rfl, rfl⟩]
  split <;> try exact ⟨rfl, rfl, rfl⟩
  split <;> try exact ⟨rfl, rfl, rfl⟩
  split <;> try exact ⟨rfl, rfl, rfl⟩
  split <;> try exact ⟨rfl, rfl, rfl⟩
  split <;> [skip; exact ⟨rfl, rfl, rfl⟩]
  split <;> try exact ⟨rfl, rfl, rfl⟩
  split <;>
    simp [approvalsBuilt_append, approvalsSubmitted_append, approvalValues_append,
      approvalsBuilt, approvalsSubmitted, approvalValues] <;>
    split <;>
    simp [approvalsBuilt_append, approvalsSubmitted_append, approvalValues_append,
      approvalsBuilt, approvalsSubmitted, approvalValues]

/-! ## C2 — default tick bounds of `add_liquidity` -/

/-- C2, counterexample: with tickSpacing 60 and currentTick 103 the
derived bounds are `(-540, 660)`; the upper bound is *below*
`currentTick + 10 * tickSpacing = 703`, contradicting the claimed
`tick_upper ≥ 703` (the source snaps both bounds downward). -/
theorem add_liquidity_tick_upper_below_claimed_window :
    deriveTickBounds 103 60 none none = (-540, 660) ∧
    ¬(103 + 10 * 60 ≤ (deriveTickBounds 103 60 none none).2) := by decide

/-- C2, amended: when neither bound is supplied, both derived bounds are
exact multiples of the tick spacing; the lower bound is the greatest
multiple `≤ currentTick - 10 * tickSpacing`, and the upper bound is the
greatest multiple `≤ currentTick + 10 * tickSpacing` (not the least
multiple `≥` it). -/
theorem add_liquidity_default_tick_bounds (t ts : ℤ) (h : 0 < ts) :
    ts ∣ (deriveTickBounds t ts none none).1 ∧
    ts ∣ (deriveTickBounds t ts none none).2 ∧
    (deriveTickBounds t ts none none).1 ≤ t - 10 * ts ∧
    t - 10 * ts - ts < (deriveTickBounds t ts none none).1 ∧
    (deriveTickBounds t ts none none).2 ≤ t + 10 * ts ∧
    t + 10 * ts - ts < (deriveTickBounds t ts none none).2 := by
  have hne : ts ≠ 0 := by omega
  have h1 := Int.emod_nonneg (t - 10 * ts) hne
  have h2 := Int.emod_lt_of_pos (t - 10 * ts) h
  have h3 := Int.emod_nonneg (t + 10 * ts) hne
  have h4 := Int.emod_lt_of_pos (t + 10 * ts) h
  have e1 : (deriveTickBounds t ts none none).1 = (t - 10 * ts) - (t - 10 * ts) % ts := rfl
  have e2 : (deriveTickBounds t ts none none).2 = (t + 10 * ts) - (t + 10 * ts) % ts := rfl
  refine ⟨⟨(t - 10 * ts) / ts, by rw [e1, Int.emod_def]; ring⟩,
    ⟨(t + 10 * ts) / ts, by rw [e2, Int.emod_def]; ring⟩, ?_, ?_, ?_, ?_⟩ <;> omega

/-- C2, witness: the amended bounds at tickSpacing 60, currentTick 103. -/
theorem add_liquidity_default_tick_bounds_witness :
    (0 : ℤ) < 60 ∧
    ((60 : ℤ) ∣ (deriveTickBounds 103 60 none none).1 ∧
     (60 : ℤ) ∣ (deriveTickBounds 103 60 none none).2 ∧
     (deriveTickBounds 103 60 none none).1 ≤ 103 - 10 * 60 ∧
     103 - 10 * 60 - 60 < (deriveTickBounds 103 60 none none).1 ∧
     (deriveTickBounds 103 60 none none).2 ≤ 103 + 10 * 60 ∧
     103 + 10 * 60 - 60 < (deriveTickBounds 103 60 none none).2) :=
  ⟨by decide, add_liquidity_default_tick_bounds 103 60 (by decide)⟩

/-! ## C4 — price conversion and the decimals-adjustment direction -/

/-- C4, counterexample: at `sqrtPriceX96 = 2^96`, `decimals0 = 18`,
`decimals1 = 6`, `get_detailed_pool_data` computes the price with exponent
`decimals0 - decimals1` (value `10^12`), not the claimed
`decimals1 - decimals0` (value `10^-12`). -/
theorem detailed_pool_price_direction_counterexample :
    (detailedPoolPrice (2 ^ 96) 18 6).eq ⟨1, 10 ^ 12⟩ = false ∧
    (detailedPoolPrice (2 ^ 96) 18 6).eq (Q.ofInt (10 ^ 12)) = true := by decide

/-- C4, amended: `calculate_price_from_sqrt_price_x96` divides by `2^96`
in `Decimal` arithmetic before squaring and adjusts by `10^(decimals1 -
decimals0)`; at `sqrtPriceX96 = 2^96` with equal decimals it returns
exactly `1.0`.  `get_detailed_pool_data`, however, adjusts its
float-computed raw price by the *opposite* exponent,
`decimals0 - decimals1`. -/
theorem price_conversion_decimal_directions :
    (∀ d : ℤ, (calculate_price_from_sqrt_price_x96 (2 ^ 96) d d).eq (Q.ofInt 1) = true) ∧
    (detailedPoolPrice (2 ^ 96) 18 6).eq (Q.ofInt (10 ^ 12)) = true ∧
    (calculate_price_from_sqrt_price_x96 (2 ^ 96) 6 18).eq (Q.ofInt (10 ^ 12)) = true := by
  refine ⟨fun d => ?_, by decide, by decide⟩
  simp only [calculate_price_from_sqrt_price_x96, sub_self]
  decide

/-! ## C6 — ascending first-success fee-tier probing -/

/-- C6: `get_token_price` probes the fee tiers 100, 500, 3000, 10000 in
that order and returns the quote of the first tier whose quoter call
succeeds (swallowing each failure); only after all four tiers fail does it
return the no-quote error. -/
theorem get_token_price_first_success (env : PriceEnv) (t qt : String)
    (h1 : env.isAddress t = true) (h2 : env.isAddress qt = true)
    (h3 : env.quoterOk = true) (h4 : env.connected = true) :
    (∀ f out,
      [100, 500, 3000, 10000].findSome? (fun fe => (env.quoter fe).map fun o => (fe, o))
        = some (f, out) →
      pint (get_token_price env t qt) "fee_tier" = some (f : ℤ) ∧
      pstr (get_token_price env t qt) "status" = some "success") ∧
    ([100, 500, 3000, 10000].findSome? (fun fe => (env.quoter fe).map fun o => (fe, o))
        = none →
      pstr (get_token_price env t qt) "status" = some "error") := by
  have hred : get_token_price env t qt = priceTierLoop env t qt [100, 500, 3000, 10000] := by
    simp [get_token_price, h1, h2, h3, h4]
  simp only [hred]
  constructor
  · intro f out hfs
    cases hq1 : env.quoter 100 <;> cases hq2 : env.quoter 500 <;>
      cases hq3 : env.quoter 3000 <;> cases hq4 : env.quoter 10000 <;>
      simp_all [priceTierLoop, List.findSome?_cons, pint, pstr, plookup]
  · intro hnone
    cases hq1 : env.quoter 100 <;> cases hq2 : env.quoter 500 <;>
      cases hq3 : env.quoter 3000 <;> cases hq4 : env.quoter 10000 <;>
      simp_all [priceTierLoop, List.findSome?_cons, pint, pstr, plookup]

/-- C6, witness: a quoter succeeding only at tier 3000 yields a quote at
fee tier 3000. -/
theorem get_token_price_first_success_witness :
    pint (get_token_price tier3000PriceEnv "0xA" "0xB") "fee_tier" = some 3000 ∧
    pstr (get_token_price tier3000PriceEnv "0xA" "0xB") "status" = some "success" :=
  (get_token_price_first_success tier3000PriceEnv "0xA" "0xB" rfl rfl rfl rfl).1
    3000 42 (by decide)

/-! ## C7 — amount conversion rejects fractional decimal strings -/

/-- C7: against a fully healthy chain, the swap with `amount_in = "0.5"`
converts cleanly to base units (`5 * 10^17`), but the subsequent
`amount_in_converted = int(amount_in)` raises `ValueError`, so the whole
swap returns an error result; `amount_in = "10"` on the same chain
succeeds.  This contradicts the claim (and spec step 4), which says every
numeric decimal string proceeds past amount conversion and only
non-numeric input fails. -/
theorem swap_tokens_rejects_fractional_amount :
    pyParseFloat "0.5" = some ⟨5, 10⟩ ∧
    pyWei ⟨5, 10⟩ 18 = 500000000000000000 ∧
    pyParseInt "0.5" = none ∧
    pstr (swap_tokens (happySwapEnv 9950000000000000000) "0xA" "0xB" "0.5"
      ⟨1, 2⟩ none).1 "status" = some "error" ∧
    pstr (swap_tokens (happySwapEnv 9950000000000000000) "0xA" "0xB" "0.5"
      ⟨1, 2⟩ none).1 "error"
      = some "Error swapping tokens: invalid literal for int with base 10: 0.5" ∧
    pstr (swap_tokens (happySwapEnv 9950000000000000000) "0xA" "0xB" "10"
      ⟨1, 2⟩ none).1 "status" = some "success" := by decide

/-! ## C1 — the slippage bound (counterexample part) -/

/-- C1, counterexample: the source computes
`int(amount_out * (1 - slippage / 100))` in binary64.  For
`amount_out = 999999999999999999`, `slippage = 0.5`, the built
transaction carries `amountOutMinimum = 995000000000000000`, while the
exact `floor(amount_out * (1 - slippage/100)) = 994999999999999999`. -/
theorem swap_minOut_not_exact_floor :
    (builtSwapTx (swap_tokens (happySwapEnv 999999999999999999) "0xA" "0xB" "10"
        ⟨1, 2⟩ none).2).map (fun tx => tx.amountOutMinimum) = some 995000000000000000 ∧
    ⌊(999999999999999999 : ℚ) * (1 - (1 / 2) / 100)⌋ = 994999999999999999 ∧
    ((995000000000000000 : ℤ) ≠ 994999999999999999) := by
  refine ⟨by decide, ?_, by decide⟩
  rw [show (1 - (1 / 2 : ℚ) / 100) = 995 / 1000 by norm_num, Int.floor_eq_iff]
  norm_num

/-! ## C3 — the swap deadline (counterexample part) -/

/-- C3, counterexample: the swap deadline is `int(time.time()) + 1200`
(local wall clock), not the chain's block timestamp plus 1200: on a chain
whose latest block timestamp is 5000 while the local clock reads 1000,
the built transaction carries deadline 2200, not 6200. -/
theorem swap_deadline_uses_wall_clock_not_chain :
    (builtSwapTx (swap_tokens (happySwapEnv 9950000000000000000) "0xA" "0xB" "10"
        ⟨1, 2⟩ none).2).map (fun tx => tx.deadline) = some 2200 ∧
    (happySwapEnv 9950000000000000000).localTime + 1200 = 2200 ∧
    (happySwapEnv 9950000000000000000).blockTimestamp + 1200 = 6200 ∧
    ((2200 : ℕ) ≠ 6200) := by decide

/-! ## C9 — status discriminator (counterexample part) -/

/-- C9, counterexample: `get_pool_details_by_address` returns dictionaries
with no `"status"` key at all — neither on the invalid-address error path
nor on a fully successful run (which does carry the payload keys). -/
theorem get_pool_details_lacks_status_key :
    hasKey (get_pool_details_by_address badAddressDetailsEnv "zzz") "status" = false ∧
    hasKey (get_pool_details_by_address badAddressDetailsEnv "zzz") "error" = true ∧
    hasKey (get_pool_details_by_address happyDetailsEnv "0xPool") "status" = false ∧
    hasKey (get_pool_details_by_address happyDetailsEnv "0xPool") "price" = true ∧
    hasKey (get_pool_details_by_address happyDetailsEnv "0xPool") "usd_price" = true := by
  decide

/-! ## C10 — private-key normalization (counterexample part) -/

/-- C10, counterexample: the empty string is falsy in Python, so a caller
passing `""` falls back to the `PRIVATE_KEY` environment variable, while
passing `"0x" ++ "" = "0x"` goes to `Account.from_key("0x")`, which
raises: with the environment variable set to a valid key the two
resolutions differ. -/
theorem account_empty_key_prefix_counterexample :
    pyStartsWith "" "0x" = false ∧
    getAccountFromPrivateKey happyKeyEnv (some "") = some ("0xaa", "0xAAAA") ∧
    getAccountFromPrivateKey happyKeyEnv (some ("0x" ++ "")) = none ∧
    (some ("0xaa", "0xAAAA") ≠ (none : Option (String × String))) := by decide

theorem builtSwapTx_append_of_some {a : List SwapEvent} (b : List SwapEvent)
    {tx : SwapTx} (h : builtSwapTx a = some tx) :
    builtSwapTx (a ++ b) = some tx := by
  induction a with
  | nil => simp [builtSwapTx] at h
  | cons e r ih => cases e <;> simp [builtSwapTx] at h ⊢ <;> first | exact h | exact ih h

/-- Every swap transaction the sequencer tail builds carries
`deadline = localTime + 1200`. -/
theorem swapAfterApproval_deadline (env : SwapEnv) (tin tout fa : String)
    (aic wei : ℤ) (s : Q) (ev : List SwapEvent) (tx : SwapTx)
    (hev : builtSwapTx ev = none)
    (h : builtSwapTx (swapAfterApproval env tin tout fa aic wei s ev).2 = some tx) :
    tx.deadline = env.localTime + 1200 := by
  unfold swapAfterApproval at h
  repeat' split at h
  all_goals
    first
    | (rw [hev] at h; cases h)
    | ((try simp only [List.append_assoc] at h)
       rw [builtSwapTx_append_of_none _ hev] at h
       simp only [builtSwapTx, Option.some.injEq] at h
       subst h
       rfl)

/-- C3, amended: every swap transaction `swap_tokens` builds carries
`deadline = int(time.time()) + 1200` — twenty minutes past the engine's
*local wall clock* at build time, not past the chain's block timestamp
(the chain-timestamp variant is what `add_liquidity` uses for its mint
transaction). -/
theorem swap_tokens_deadline (env : SwapEnv) (tin tout ain : String) (s : Q)
    (pk : Option String) (tx : SwapTx)
    (h : builtSwapTx (swap_tokens env tin tout ain s pk).2 = some tx) :
    tx.deadline = env.localTime + 1200 := by
  unfold swap_tokens at h
  repeat' split at h
  all_goals try (simp [builtSwapTx] at h)
  all_goals split at h
  all_goals
    first
    | simp [builtSwapTx] at h
    | exact swapAfterApproval_deadline _ _ _ _ _ _ _ _ _ (by simp [builtSwapTx]) h

/-- C3, witness: the deadline of the swap built on the concrete happy
chain (local clock 1000) is 2200. -/
theorem swap_tokens_deadline_witness :
    (builtSwapTx (swap_tokens (happySwapEnv 9950000000000000000) "0xA" "0xB" "10"
      ⟨1, 2⟩ none).2).map (fun tx => tx.deadline)
      = some ((happySwapEnv 9950000000000000000).localTime + 1200) := by
  have hx : ∃ tx, builtSwapTx (swap_tokens (happySwapEnv 9950000000000000000) "0xA" "0xB"
      "10" ⟨1, 2⟩ none).2 = some tx := ⟨_, rfl⟩
  obtain ⟨tx, htx⟩ := hx
  rw [htx, Option.map_some']
  exact congrArg some
    (swap_tokens_deadline (happySwapEnv 9950000000000000000) "0xA" "0xB" "10" ⟨1, 2⟩ none tx htx)

/-- C1, amended: on a swap run that reaches the build (any allowance
state, approval confirmed when needed), the built transaction's
`amountOutMinimum` equals `int(amount_out * (1 - slippage / 100))`
evaluated in binary64 arithmetic (`pyMinAmountOut`), and the success
result reports exactly that value as `min_amount_out` (and the quote as
`expected_amount_out`).  At the spec's cited input
(`amountOut = 9950000000000000000`, slippage `0.5`) this value coincides
with the exact floor, `9900250000000000000`; the coincidence is not
general (see the counterexample). -/
theorem swap_tokens_minOut_semantics
    (env : SwapEnv) (tin tout ain : String) (s : Q) (pk : Option String)
    (acct fa : String) (aF : Q) (aI : ℤ) (al : ℕ) (out n g c ath sth : ℕ)
    (h1 : env.isAddress tin = true) (h2 : env.isAddress tout = true)
    (h3 : getAccountFromPrivateKey env.keyEnv pk = some (acct, fa))
    (h4 : env.connected = true) (h5 : env.routerOk = true) (h6 : env.tokenInOk = true)
    (h7 : pyParseFloat ain = some aF) (h8 : pyParseInt ain = some aI)
    (h9 : env.allowanceCall = Res.ok al)
    (h11 : env.nonceCall = Res.ok n) (h12 : env.gasPriceCall = Res.ok g)
    (h13 : env.chainIdCall = Res.ok c)
    (ha : env.approveSignSend = Res.ok ath) (hr : env.approveReceiptStatus = 1)
    (hQ : env.quoterOk = true) (hq : env.quoteCall = Res.ok out)
    (h14 : env.routerHasExactInputSingle = true) (h15 : env.swapBuild = Res.ok ())
    (h16 : env.swapSignSend = Res.ok sth) (h17 : env.swapReceiptWait = Res.ok ()) :
    (∀ tx, builtSwapTx (swap_tokens env tin tout ain s pk).2 = some tx →
      tx.amountOutMinimum = pyMinAmountOut out s) ∧
    pstr (swap_tokens env tin tout ain s pk).1 "status" = some "success" ∧
    pint (swap_tokens env tin tout ain s pk).1 "min_amount_out"
      = some (pyMinAmountOut out s) ∧
    pint (swap_tokens env tin tout ain s pk).1 "expected_amount_out" = some (out : ℤ) := by
  by_cases hw : (al : ℤ) < pyWei aF (env.decimalsCall.getD 18)
  · simp only [swap_tokens, swapAfterApproval, h1, h2, h3, h4, h5, h6, h7, h8, h9,
      h11, h12, h13, ha, hr, hQ, hq, h14, h15, h16, h17, if_pos hw, if_true]
    refine ⟨?_, ?_, ?_, ?_⟩ <;>
      simp [builtSwapTx, pstr, pint, plookup]
  · simp only [swap_tokens, swapAfterApproval, h1, h2, h3, h4, h5, h6, h7, h8, h9,
      h11, h12, h13, ha, hr, hQ, hq, h14, h15, h16, h17, if_neg hw, if_true]
    refine ⟨?_, ?_, ?_, ?_⟩ <;>
      simp [builtSwapTx, pstr, pint, plookup]

/-- C1, witness: the spec's end-to-end scenario — 18-decimals input,
`amount_in = "10"`, slippage `0.5`, quote `9950000000000000000` — yields
`min_amount_out = 9900250000000000000`, which equals the exact
`floor(amountOut * (1 - slippage/100))` at this input. -/
theorem swap_tokens_minOut_semantics_witness :
    pstr (swap_tokens (happySwapEnv 9950000000000000000) "0xA" "0xB" "10" ⟨1, 2⟩ none).1
      "status" = some "success" ∧
    pint (swap_tokens (happySwapEnv 9950000000000000000) "0xA" "0xB" "10" ⟨1, 2⟩ none).1
      "min_amount_out" = some (pyMinAmountOut 9950000000000000000 ⟨1, 2⟩) ∧
    pyMinAmountOut 9950000000000000000 ⟨1, 2⟩ = 9900250000000000000 ∧
    ⌊(9950000000000000000 : ℚ) * (1 - (1 / 2) / 100)⌋ = 9900250000000000000 := by
  have H := swap_tokens_minOut_semantics (happySwapEnv 9950000000000000000) "0xA" "0xB"
    "10" ⟨1, 2⟩ none "0xaa" "0xAAAA" ⟨10, 1⟩ 10 0 9950000000000000000 7 5 14 111 222
    rfl rfl (by decide) rfl rfl rfl (by decide) (by decide) rfl rfl rfl rfl rfl rfl rfl
    rfl rfl rfl rfl rfl
  refine ⟨H.2.1, H.2.2.1, by decide, ?_⟩
  rw [show (1 - (1 / 2 : ℚ) / 100) = 995 / 1000 by norm_num, Int.floor_eq_iff]
  norm_num

/-- In the sequencer tail, an approval receipt already present in the
accumulated trace precedes any swap transaction the tail builds. -/
theorem swapAfterApproval_receiptBefore (env : SwapEnv) (tin tout fa : String)
    (aic wei : ℤ) (s : Q) (x : String) (y z st : ℕ) :
    receiptBeforeSwapBuilt (swapAfterApproval env tin tout fa aic wei s
      [SwapEvent.approvalBuilt x y, SwapEvent.approvalSubmitted z,
       SwapEvent.approvalReceipt st]).2 = true := by
  unfold swapAfterApproval
  repeat' split
  all_goals simp [receiptBeforeSwapBuilt]


/-- C5: on a swap run that reaches the allowance check (oracle reads up
to and including the allowance succeed): with sufficient allowance no
approval transaction is built or submitted; with insufficient allowance
exactly one approval is built, for the maximum uint256 value, and once
its submission succeeds it is submitted exactly once and its receipt is
awaited before any swap transaction is built; a non-success approval
receipt aborts the swap with an error result carrying the approval
transaction hash (and no swap transaction is ever built). -/
theorem swap_tokens_approval_policy
    (env : SwapEnv) (tin tout ain : String) (s : Q) (pk : Option String)
    (acct fa : String) (aF : Q) (aI : ℤ) (al : ℕ) (n g c : ℕ)
    (h1 : env.isAddress tin = true) (h2 : env.isAddress tout = true)
    (h3 : getAccountFromPrivateKey env.keyEnv pk = some (acct, fa))
    (h4 : env.connected = true) (h5 : env.routerOk = true) (h6 : env.tokenInOk = true)
    (h7 : pyParseFloat ain = some aF) (h8 : pyParseInt ain = some aI)
    (h9 : env.allowanceCall = Res.ok al)
    (h11 : env.nonceCall = Res.ok n) (h12 : env.gasPriceCall = Res.ok g)
    (h13 : env.chainIdCall = Res.ok c) :
    (pyWei aF (env.decimalsCall.getD 18) ≤ (al : ℤ) →
      approvalsBuilt (swap_tokens env tin tout ain s pk).2 = 0 ∧
      approvalsSubmitted (swap_tokens env tin tout ain s pk).2 = 0) ∧
    ((al : ℤ) < pyWei aF (env.decimalsCall.getD 18) →
      approvalsBuilt (swap_tokens env tin tout ain s pk).2 = 1 ∧
      approvalValues (swap_tokens env tin tout ain s pk).2 = [2 ^ 256 - 1] ∧
      (∀ ath, env.approveSignSend = Res.ok ath →
        approvalsSubmitted (swap_tokens env tin tout ain s pk).2 = 1 ∧
        receiptBeforeSwapBuilt (swap_tokens env tin tout ain s pk).2 = true ∧
        (env.approveReceiptStatus ≠ 1 →
          pstr (swap_tokens env tin tout ain s pk).1 "status" = some "error" ∧
          pstr (swap_tokens env tin tout ain s pk).1 "error"
            = some "Approval transaction failed" ∧
          pstr (swap_tokens env tin tout ain s pk).1 "tx_hash" = some (txHex ath) ∧
          builtSwapTx (swap_tokens env tin tout ain s pk).2 = none))) := by
  constructor
  · intro hw
    have hw2 : ¬((al : ℤ) < pyWei aF (env.decimalsCall.getD 18)) := not_lt.mpr hw
    simp only [swap_tokens, h1, h2, h3, h4, h5, h6, h7, h8, h9, if_neg hw2, if_true]
    have ht := swapAfterApproval_trace env tin tout fa aI
      (pyWei aF (env.decimalsCall.getD 18)) s []
    exact ⟨by simpa [approvalsBuilt] using ht.1, by simpa [approvalsSubmitted] using ht.2.1⟩
  · intro hw
    cases hA : env.approveSignSend with
    | err e =>
      simp only [swap_tokens, h1, h2, h3, h4, h5, h6, h7, h8, h9, h11, h12, h13,
        if_pos hw, hA, if_true]
      refine ⟨by simp [approvalsBuilt], by simp [approvalValues], ?_⟩
      intro ath hath
      cases hath
    | ok ath0 =>
      by_cases hrs : env.approveReceiptStatus = 1
      · simp only [swap_tokens, h1, h2, h3, h4, h5, h6, h7, h8, h9, h11, h12, h13,
          if_pos hw, hA, if_pos hrs, if_true]
        have ht := swapAfterApproval_trace env tin tout fa aI
          (pyWei aF (env.decimalsCall.getD 18)) s
          ([SwapEvent.approvalBuilt swapRouterAddress (2 ^ 256 - 1)] ++
            [SwapEvent.approvalSubmitted ath0,
             SwapEvent.approvalReceipt env.approveReceiptStatus])
        refine ⟨by simpa [approvalsBuilt] using ht.1,
          by simpa [approvalValues] using ht.2.2, ?_⟩
        intro ath hath
        cases hath
        refine ⟨by simpa [approvalsSubmitted] using ht.2.1, ?_, ?_⟩
        · simpa using swapAfterApproval_receiptBefore env tin tout fa aI
            (pyWei aF (env.decimalsCall.getD 18)) s swapRouterAddress (2 ^ 256 - 1)
            ath0 env.approveReceiptStatus
        · intro hne
          exact absurd hrs hne
      · simp only [swap_tokens, h1, h2, h3, h4, h5, h6, h7, h8, h9, h11, h12, h13,
          if_pos hw, hA, if_neg hrs, if_true]
        refine ⟨by simp [approvalsBuilt], by simp [approvalValues], ?_⟩
        intro ath hath
        cases hath
        refine ⟨by simp [approvalsSubmitted], by simp [receiptBeforeSwapBuilt], ?_⟩
        intro _
        refine ⟨by simp [pstr, plookup], by simp [pstr, plookup], by simp [pstr, plookup],
          by simp [builtSwapTx]⟩

/-- C5, witness: on the happy chain with zero allowance and a failing
approval receipt, exactly one max-uint256 approval is built and
submitted, its receipt precedes any swap build, and the swap aborts with
the approval hash in the error result. -/
theorem swap_tokens_approval_policy_witness :
    approvalsBuilt (swap_tokens failedApprovalSwapEnv "0xA" "0xB" "10" ⟨1, 2⟩ none).2 = 1 ∧
    approvalValues (swap_tokens failedApprovalSwapEnv "0xA" "0xB" "10" ⟨1, 2⟩ none).2
      = [2 ^ 256 - 1] ∧
    approvalsSubmitted (swap_tokens failedApprovalSwapEnv "0xA" "0xB" "10" ⟨1, 2⟩ none).2 = 1 ∧
    receiptBeforeSwapBuilt (swap_tokens failedApprovalSwapEnv "0xA" "0xB" "10" ⟨1, 2⟩ none).2
      = true ∧
    pstr (swap_tokens failedApprovalSwapEnv "0xA" "0xB" "10" ⟨1, 2⟩ none).1 "status"
      = some "error" ∧
    pstr (swap_tokens failedApprovalSwapEnv "0xA" "0xB" "10" ⟨1, 2⟩ none).1 "tx_hash"
      = some (txHex 111) ∧
    builtSwapTx (swap_tokens failedApprovalSwapEnv "0xA" "0xB" "10" ⟨1, 2⟩ none).2 = none := by
  have H := swap_tokens_approval_policy failedApprovalSwapEnv "0xA" "0xB" "10" ⟨1, 2⟩ none
    "0xaa" "0xAAAA" ⟨10, 1⟩ 10 0 7 5 14 rfl rfl (by decide) rfl rfl rfl (by decide)
    (by decide) rfl rfl rfl rfl
  have H2 := H.2 (by decide)
  have H3 := H2.2.2 111 rfl
  exact ⟨H2.1, H2.2.1, H3.1, H3.2.1, (H3.2.2 (by decide)).1, (H3.2.2 (by decide)).2.2.1,
    (H3.2.2 (by decide)).2.2.2⟩

/-! ## C8 — ABI caching -/

/-- `load_abi` never touches the explorer-fetch counter. -/
theorem load_abi_fetches (envA : AbiEnv) (st : AbiState) (name : String) :
    (load_abi envA st name).2.fetches = st.fetches := by
  cases hc : List.lookup name st.cache with
  | some a => simp [load_abi, hc]
  | none =>
    cases hp : abiFilePath envA name with
    | none => simp [load_abi, hc, hp]
    | some path =>
      cases hf : envA.fs path with
      | some abi => simp [load_abi, hc, hp, hf]
      | none => simp [load_abi, hc, hp, hf]

/-- A `load_abi` run that raises `FileNotFoundError` leaves the cache
unchanged. -/
theorem load_abi_cache_of_fnf (envA : AbiEnv) (st : AbiState) (name : String)
    (h : (load_abi envA st name).1 = .fileNotFound) :
    (load_abi envA st name).2.cache = st.cache := by
  cases hc : List.lookup name st.cache with
  | some a => simp [load_abi, hc] at h
  | none =>
    cases hp : abiFilePath envA name with
    | none => simp [load_abi, hc, hp]
    | some path =>
      cases hf : envA.fs path with
      | some abi => simp [load_abi, hc, hp, hf] at h
      | none => simp [load_abi, hc, hp, hf]

/-- C8, amended: resolutions that succeed through the local ABI store are
cached keyed by the argument string — repeating the same `load_abi` call
is a pure cache hit (same ABI, state unchanged, so no further file read
or fetch).  Resolutions that fall through to the remote explorer are
*not* cached: each `_get_contract_abi` call that misses locally performs
a fresh explorer fetch and leaves the cache as it found it. -/
theorem load_abi_cache_semantics (envA : AbiEnv) (st : AbiState) (name : String)
    (a : Abi) (st1 : AbiState) :
    (load_abi envA st name = (.ok a, st1) → load_abi envA st1 name = (.ok a, st1)) ∧
    ((load_abi envA st name).1 = .fileNotFound →
      (get_contract_abi envA st name).2.fetches = st.fetches + 1 ∧
      (get_contract_abi envA st name).2.cache = st.cache) := by
  constructor
  · intro h
    cases hc : List.lookup name st.cache with
    | some b =>
      simp only [load_abi, hc] at h
      obtain ⟨h1, h2⟩ := Prod.mk.injEq .. ▸ h
      cases h1
      subst h2
      simp [load_abi, hc]
    | none =>
      cases hp : abiFilePath envA name with
      | none => simp [load_abi, hc, hp] at h
      | some path =>
        cases hf : envA.fs path with
        | none => simp [load_abi, hc, hp, hf] at h
        | some abi =>
          simp only [load_abi, hc, hp, hf] at h
          obtain ⟨h1, h2⟩ := Prod.mk.injEq .. ▸ h
          cases h1
          subst h2
          simp [load_abi, List.lookup]
  · intro hfnf
    unfold get_contract_abi
    cases hl : load_abi envA st name with
    | mk r st2 =>
      have hfe : st2.fetches = st.fetches := by
        have hx := load_abi_fetches envA st name
        rw [hl] at hx
        exact hx
      have hce : st2.cache = st.cache := by
        have hx := load_abi_cache_of_fnf envA st name (by rw [hl]; rw [hl] at hfnf; exact hfnf)
        rw [hl] at hx
        exact hx
      rw [hl] at hfnf
      simp only at hfnf
      subst hfnf
      cases he : envA.explorer name <;> simp [hfe, hce]

/-- C8, counterexample: resolving the same address twice through the
remote explorer performs two fetches, not one — the remote result is
never inserted into the cache. -/
theorem abi_remote_fetch_not_cached :
    (get_contract_abi remoteOnlyAbiEnv freshAbiState "0xDEAD").1 = some 7 ∧
    (get_contract_abi remoteOnlyAbiEnv
      (get_contract_abi remoteOnlyAbiEnv freshAbiState "0xDEAD").2 "0xDEAD").1 = some 7 ∧
    (get_contract_abi remoteOnlyAbiEnv
      (get_contract_abi remoteOnlyAbiEnv freshAbiState "0xDEAD").2 "0xDEAD").2.fetches = 2 ∧
    ((2 : ℕ) ≠ 1) := by decide

/-- C8, witness: loading the local `erc20` ABI once reads the file and
caches it; the repeat call is answered from the cache with the state
unchanged. -/
theorem load_abi_cache_semantics_witness :
    (load_abi localAbiEnv freshAbiState "erc20"
      = (.ok 3, { cache := [("erc20", 3)], diskReads := 1, fetches := 0 }) ∧
    load_abi localAbiEnv { cache := [("erc20", 3)], diskReads := 1, fetches := 0 } "erc20"
      = (.ok 3, { cache := [("erc20", 3)], diskReads := 1, fetches := 0 })) ∧
    ((load_abi remoteOnlyAbiEnv freshAbiState "0xDEAD").1 = .fileNotFound ∧
    (get_contract_abi remoteOnlyAbiEnv freshAbiState "0xDEAD").2.fetches
      = freshAbiState.fetches + 1 ∧
    (get_contract_abi remoteOnlyAbiEnv freshAbiState "0xDEAD").2.cache
      = freshAbiState.cache) := by
  refine ⟨⟨by decide, ?_⟩, by decide, ?_, ?_⟩
  · exact (load_abi_cache_semantics localAbiEnv freshAbiState "erc20" 3
      { cache := [("erc20", 3)], diskReads := 1, fetches := 0 }).1 (by decide)
  · exact ((load_abi_cache_semantics remoteOnlyAbiEnv freshAbiState "0xDEAD" 0
      freshAbiState).2 (by decide)).1
  · exact ((load_abi_cache_semantics remoteOnlyAbiEnv freshAbiState "0xDEAD" 0
      freshAbiState).2 (by decide)).2

/-! ## C9 — the status discriminator -/

/-- The fee-tier loop of `get_token_price` always returns a dict whose
`status` is `success` or `error`. -/
theorem priceTierLoop_status (envP : PriceEnv) (ta qa : String) (l : List ℕ) :
    pstr (priceTierLoop envP ta qa l) "status" ∈ [some "success", some "error"] := by
  induction l with
  | nil => simp [priceTierLoop, errDict, pstr, plookup]
  | cons f r ih =>
    cases hq : envP.quoter f with
    | some o => simp [priceTierLoop, hq, pstr, plookup]
    | none => simpa [priceTierLoop, hq] using ih

/-- The sequencer tail always returns a dict whose `status` is `success`
or `error`. -/
theorem swapAfterApproval_status (env : SwapEnv) (tin tout fa : String)
    (aic wei : ℤ) (s : Q) (ev : List SwapEvent) :
    pstr (swapAfterApproval env tin tout fa aic wei s ev).1 "status"
      ∈ [some "success", some "error"] := by
  unfold swapAfterApproval
  repeat' split
  all_goals simp [errDict, pstr, plookup]

/-- Status membership is preserved under a branch. -/
theorem status_mem_ite (c : Prop) [Decidable c] (d1 d2 : PyDict × List SwapEvent)
    (h1 : pstr d1.1 "status" ∈ [some "success", some "error"])
    (h2 : pstr d2.1 "status" ∈ [some "success", some "error"]) :
    pstr (if c then d1 else d2).1 "status" ∈ [some "success", some "error"] := by
  split <;> assumption

/-- C9, amended: `get_pool_info`, `get_token_price` and `swap_tokens`
return a `status` discriminator (`success`/`error`, plus `partial` for
`get_pool_info`) on every path; `get_pool_details_by_address` alone
returns dictionaries that never carry a `status` key on any path. -/
theorem status_discriminator_discipline
    (envI : PoolInfoEnv) (t0 t1 : String) (fee : ℕ)
    (envD : PoolDetailsEnv) (addr : String)
    (envP : PriceEnv) (ta qa : String)
    (envS : SwapEnv) (tin tout ain : String) (s : Q) (pk : Option String) :
    pstr (get_pool_info envI t0 t1 fee) "status"
      ∈ [some "success", some "error", some "partial"] ∧
    pstr (get_token_price envP ta qa) "status" ∈ [some "success", some "error"] ∧
    pstr (swap_tokens envS tin tout ain s pk).1 "status"
      ∈ [some "success", some "error"] ∧
    pstr (get_pool_details_by_address envD addr) "status" = none := by
  refine ⟨?_, ?_, ?_, ?_⟩
  · unfold get_pool_info
    repeat' split
    all_goals simp [errDict, pstr, plookup]
  · unfold get_token_price
    repeat' split
    all_goals
      first
      | exact priceTierLoop_status envP ta qa _
      | simp [errDict, pstr, plookup]
  · unfold swap_tokens
    repeat' split
    all_goals
      first
      | exact swapAfterApproval_status _ _ _ _ _ _ _ _
      | (simp [errDict, pstr, plookup]; done)
      | exact status_mem_ite _ _ _
          (by first
            | exact swapAfterApproval_status _ _ _ _ _ _ _ _
            | simp [errDict, pstr, plookup])
          (by first
            | exact swapAfterApproval_status _ _ _ _ _ _ _ _
            | simp [errDict, pstr, plookup])
  · unfold get_pool_details_by_address
    repeat' split
    all_goals try (simp [pstr, plookup]; done)
    all_goals dsimp only
    all_goals split
    all_goals simp [pstr, plookup]

/-! ## C10 — private-key normalization (amended part) -/

/-- C10, amended: for every *non-empty* key string `k` that does not
start with `0x`, account resolution yields exactly the same result as for
`"0x" ++ k` (both normalize to the same `Account.from_key` input); an
empty string is falsy in Python and falls back to the environment
variable instead (see the counterexample).  With no key argument and
`PRIVATE_KEY` unset, resolution yields the `(None, None)` sentinel, and
`swap_tokens` then returns an error-status dictionary rather than
raising. -/
theorem account_key_normalization
    (kenv : KeyEnv) (k : String)
    (h1 : k.isEmpty = false) (h2 : pyStartsWith k "0x" = false)
    (envS : SwapEnv) (tin tout ain : String) (s : Q)
    (h3 : envS.keyEnv.privateKeyEnv = none)
    (h4 : envS.isAddress tin = true) (h5 : envS.isAddress tout = true) :
    getAccountFromPrivateKey kenv (some k)
      = getAccountFromPrivateKey kenv (some ("0x" ++ k)) ∧
    (kenv.privateKeyEnv = none → getAccountFromPrivateKey kenv none = none) ∧
    pstr (swap_tokens envS tin tout ain s none).1 "status" = some "error" ∧
    pstr (swap_tokens envS tin tout ain s none).1 "error"
      = some "Failed to get account from private key" := by
  have hne2 : ("0x" ++ k).isEmpty = false := by
    rw [Bool.eq_false_iff]
    intro hcontra
    have he : "0x" ++ k = "" := (String.isEmpty_iff _).mp hcontra
    have hd := congrArg String.data he
    rw [String.data_append] at hd
    simp at hd
  have hsw : pyStartsWith ("0x" ++ k) "0x" = true := by
    simp [pyStartsWith, String.data_append, List.isPrefixOf]
  have hacct : getAccountFromPrivateKey envS.keyEnv none = none := by
    simp [getAccountFromPrivateKey, effectiveKey, h3]
  refine ⟨?_, ?_, ?_, ?_⟩
  · simp [getAccountFromPrivateKey, effectiveKey, h1, h2, hne2, hsw]
  · intro hk
    simp [getAccountFromPrivateKey, effectiveKey, hk]
  · simp [swap_tokens, h4, h5, hacct, errDict, pstr, plookup]
  · simp [swap_tokens, h4, h5, hacct, errDict, pstr, plookup]

/-- C10, witness: the normalization equality at `k = "aa"`, and the
error-result behaviour of `swap_tokens` with no key available. -/
theorem account_key_normalization_witness :
    (getAccountFromPrivateKey noKeySwapEnv.keyEnv (some "aa")
      = getAccountFromPrivateKey noKeySwapEnv.keyEnv (some ("0x" ++ "aa")) ∧
    (noKeySwapEnv.keyEnv.privateKeyEnv = none →
      getAccountFromPrivateKey noKeySwapEnv.keyEnv none = none) ∧
    pstr (swap_tokens noKeySwapEnv "0xA" "0xB" "10" ⟨1, 2⟩ none).1 "status" = some "error" ∧
    pstr (swap_tokens noKeySwapEnv "0xA" "0xB" "10" ⟨1, 2⟩ none).1 "error"
      = some "Failed to get account from private key") :=
  account_key_normalization noKeySwapEnv.keyEnv "aa" (by decide) (by decide)
    noKeySwapEnv "0xA" "0xB" "10" ⟨1, 2⟩ rfl rfl rfl
